import Mathlib

/-!
Shallow embedding of the Rovers repository (Universal Motor Controller):
the motor hardware-abstraction backends (motozero, l298, camjam), the
textual command processing of motor/umc.py, its heartbeat monitor, the
constructor/dead-code structure of UniversalMotorController, and the
config loading path.  Machine-level details are modelled exactly: the
Python floats stored by the motozero and camjam backends are modelled as
the exact rational values of IEEE 754 binary64 numbers, with
round-to-nearest, ties-to-even.
-/

namespace Rovers

/-! ## Exact model of IEEE 754 binary64 values

Python floats are binary64.  All float values arising in this code are
nonnegative and far inside the normal range, so the model rounds a
positive rational to the nearest number of the form m / 2^s with
m < 2^53 (ties to even), without overflow or subnormal handling. -/

/-- Round num/den (den > 0) to the nearest natural number, ties to even. -/
def rne (num den : Nat) : Nat :=
  let q := num / den
  let r := num % den
  if 2 * r < den then q
  else if den < 2 * r then q + 1
  else if q % 2 = 0 then q else q + 1

/-- Smallest j with num * 2^j >= den, searched with explicit fuel
(enough fuel is always supplied for the ranges arising here). -/
def ratExpSearch : Nat → Nat → Nat → Nat
  | _, _, 0 => 0
  | num, den, fuel + 1 => if den ≤ num then 0 else ratExpSearch (2 * num) den fuel + 1

/-- Floor of log2 of a positive natural number, with explicit fuel
(structurally recursive so that proofs can evaluate it). -/
def natLog2 : Nat → Nat → Nat
  | 0, _ => 0
  | fuel + 1, n => if 2 ≤ n then natLog2 fuel (n / 2) + 1 else 0

/-- Floor of log2 of the positive rational num/den. -/
def ratFloorLog2 (num den : Nat) : Int :=
  if den ≤ num then (natLog2 1100 (num / den) : Int)
  else -(ratExpSearch num den 1100 : Int)

/-- The binary64 rounding of the nonnegative rational num/den, returned as a
pair (m, d) denoting the rational m/d: the significand is placed on the
grid of spacing 2^(e-52) where e is the floor log2 of the input, and
rounded to nearest, ties to even. -/
def flPair (num den : Nat) : Nat × Nat :=
  if num = 0 then (0, 1)
  else
    let e := ratFloorLog2 num den
    let shift : Int := 52 - e
    if 0 ≤ shift then
      let s := shift.toNat
      (rne (num * 2 ^ s) den, 2 ^ s)
    else
      let s := (-shift).toNat
      (rne num (den * 2 ^ s) * 2 ^ s, 1)

/-- The binary64 rounding of the nonnegative rational num/den, as a
rational (mkRat, so that proofs can evaluate the result; several of the
rational operations of the ambient library are irreducible). -/
def flQ (num den : Nat) : ℚ := mkRat (flPair num den).1 (flPair num den).2

/-- The binary64 rounding of a nonnegative rational. -/
def flRatQ (q : ℚ) : ℚ := flQ q.num.toNat q.den

/-- Exact product of a rational and a natural number, written with mkRat
so that proofs can evaluate it (see ratMulNat_eq). -/
def ratMulNat (x : ℚ) (n : Nat) : ℚ := mkRat (x.num * n) x.den

/-- Exact difference of two rationals, written with mkRat so that proofs
can evaluate it (see ratSub_eq). -/
def ratSub (a b : ℚ) : ℚ := mkRat (a.num * b.den - b.num * a.den) (a.den * b.den)

/-- The Python float product x * (n : int): n is converted exactly to
binary64 (all ints here are tiny), the product is rounded once.  x is the
exact value of a binary64 number. -/
def pyFloatMulNat (x : ℚ) (n : Nat) : ℚ := flRatQ (ratMulNat x n)

/-- The Python int() builtin applied to a float: truncation toward zero.
Every value it is applied to in this development is nonnegative, where
truncation agrees with the floor. -/
def pyInt (q : ℚ) : Int := Rat.floor q

/-! ## Shared motion data model

The three backends track the same state triple (current_speed,
current_direction, is_moving).  The direction strings STOPPED, FORWARD,
BACKWARD, LEFT, RIGHT of the sources become an inductive type. -/

inductive Direction
  | STOPPED
  | FORWARD
  | BACKWARD
  | LEFT
  | RIGHT
deriving DecidableEq, Repr

/-- The status record returned by get_status (the three fields common to
every backend). -/
structure Status where
  speed_percent : Int
  direction : Direction
  is_moving : Bool
deriving DecidableEq, Repr

/-- The clamping block at the top of set_speed, identical in all three
backends: if speed_percent < 0: speed_percent = 0, elif > 100: = 100. -/
def clampSpeed (speed_percent : Int) : Int :=
  if speed_percent < 0 then 0
  else if speed_percent > 100 then 100
  else speed_percent

/-- Default value of the speed_percent parameter of the start functions of
every backend (Python default parameter: def start_forward(self,
speed_percent=50)).  The legacy single-character commands of umc.py call
the start functions with no argument, hence with this value. -/
def hal_default_speed : Int := 50

/-! ## motor/hal/motozero.py — MotoZeroController

State: current_speed is a Python float in 0.0 .. 1.0, modelled as the
exact rational value of the stored binary64 number; current_direction and
is_moving as above.  Calls into the gpiozero Motor objects are modelled
as emitted events (one per motor method call, in source order). -/

namespace MotoZero

/-- The four motors of the MotoZero board (front/rear, left/right). -/
inductive Wheel
  | FR
  | FL
  | RL
  | RR
deriving DecidableEq, Repr

/-- One gpiozero motor call issued by the controller. -/
inductive MZEvent
  | forwardCall (w : Wheel) (speed : ℚ)
  | backwardCall (w : Wheel) (speed : ℚ)
  | stopCall (w : Wheel)
deriving DecidableEq, Repr

structure State where
  current_speed : ℚ
  current_direction : Direction
  is_moving : Bool
deriving DecidableEq, Repr

/-- State after MotoZeroController.__init__ (lines 20-22). -/
def init : State :=
  { current_speed := 0, current_direction := .STOPPED, is_moving := false }

open MZEvent Wheel in
/-- _apply_current_movement (lines 74-95): one motor call per motor, in
the order of the source; no branch for STOPPED. -/
def apply_current_movement (s : State) : List MZEvent :=
  match s.current_direction with
  | .FORWARD =>
      [forwardCall FR s.current_speed, forwardCall FL s.current_speed,
       forwardCall RL s.current_speed, forwardCall RR s.current_speed]
  | .BACKWARD =>
      [backwardCall FR s.current_speed, backwardCall FL s.current_speed,
       backwardCall RL s.current_speed, backwardCall RR s.current_speed]
  | .LEFT =>
      [backwardCall FR s.current_speed, forwardCall FL s.current_speed,
       forwardCall RL s.current_speed, backwardCall RR s.current_speed]
  | .RIGHT =>
      [forwardCall FR s.current_speed, backwardCall FL s.current_speed,
       backwardCall RL s.current_speed, forwardCall RR s.current_speed]
  | .STOPPED => []

/-- set_speed (lines 24-35): clamp, store speed_percent / 100.0 (one
binary64 rounding; the clamped value is in [0,100], so toNat is exact),
and if moving re-apply the current movement. -/
def set_speed (s : State) (speed_percent : Int) : State × List MZEvent :=
  let c := clampSpeed speed_percent
  let s := { s with current_speed := flQ c.toNat 100 }
  if s.is_moving then (s, apply_current_movement s) else (s, [])

/-- start_forward (lines 37-42). -/
def start_forward (s : State) (speed_percent : Int) : State × List MZEvent :=
  let p := set_speed s speed_percent
  let s := { p.1 with current_direction := Direction.FORWARD, is_moving := true }
  (s, p.2 ++ apply_current_movement s)

/-- start_backward (lines 44-49). -/
def start_backward (s : State) (speed_percent : Int) : State × List MZEvent :=
  let p := set_speed s speed_percent
  let s := { p.1 with current_direction := Direction.BACKWARD, is_moving := true }
  (s, p.2 ++ apply_current_movement s)

/-- start_left (lines 51-56). -/
def start_left (s : State) (speed_percent : Int) : State × List MZEvent :=
  let p := set_speed s speed_percent
  let s := { p.1 with current_direction := Direction.LEFT, is_moving := true }
  (s, p.2 ++ apply_current_movement s)

/-- start_right (lines 58-63). -/
def start_right (s : State) (speed_percent : Int) : State × List MZEvent :=
  let p := set_speed s speed_percent
  let s := { p.1 with current_direction := Direction.RIGHT, is_moving := true }
  (s, p.2 ++ apply_current_movement s)

open MZEvent Wheel in
/-- stop (lines 65-72): four motor stop calls, then direction STOPPED and
is_moving false; current_speed is untouched. -/
def stop (s : State) : State × List MZEvent :=
  ({ s with current_direction := Direction.STOPPED, is_moving := false },
   [stopCall FR, stopCall FL, stopCall RL, stopCall RR])

/-- get_status (lines 97-103): speed_percent is int(current_speed * 100),
a binary64 multiplication followed by truncation toward zero. -/
def get_status (s : State) : Status :=
  { speed_percent := pyInt (pyFloatMulNat s.current_speed 100),
    direction := s.current_direction,
    is_moving := s.is_moving }

end MotoZero

/-! ## motor/hal/l298.py — L298Controller

State: current_speed is kept as the percentage itself (initialised to the
integer 50 and only ever assigned clamped command values, so it is
modelled as an Int); GPIO pin writes and PWM duty-cycle changes are
modelled as emitted events. -/

namespace L298

/-- The direction pins (BCM numbers from __init__): in1 = 21, in2 = 20,
in3 = 19, in4 = 26. -/
def in1 : Nat := 21
def in2 : Nat := 20
def in3 : Nat := 19
def in4 : Nat := 26

/-- One GPIO or PWM call issued by the controller. -/
inductive L298Event
  | output (pin : Nat) (high : Bool)
  | changeDutyA (duty : Int)
  | changeDutyB (duty : Int)
deriving DecidableEq, Repr

structure State where
  current_speed : Int
  current_direction : Direction
  is_moving : Bool
deriving DecidableEq, Repr

/-- State after L298Controller.__init__ (lines 42-44). -/
def init : State :=
  { current_speed := 50, current_direction := .STOPPED, is_moving := false }

open L298Event in
/-- set_speed (lines 46-58): clamp, store, and if moving change both PWM
duty cycles to the new speed (direction pins untouched). -/
def set_speed (s : State) (speed_percent : Int) : State × List L298Event :=
  let c := clampSpeed speed_percent
  let s := { s with current_speed := c }
  if s.is_moving then
    (s, [changeDutyA s.current_speed, changeDutyB s.current_speed])
  else (s, [])

open L298Event in
/-- start_forward (lines 60-71). -/
def start_forward (s : State) (speed_percent : Int) : State × List L298Event :=
  let p := set_speed s speed_percent
  let s := { p.1 with current_direction := Direction.FORWARD, is_moving := true }
  (s, p.2 ++ [output in1 true, output in2 false, output in3 true, output in4 false,
              changeDutyA s.current_speed, changeDutyB s.current_speed])

open L298Event in
/-- start_backward (lines 73-84). -/
def start_backward (s : State) (speed_percent : Int) : State × List L298Event :=
  let p := set_speed s speed_percent
  let s := { p.1 with current_direction := Direction.BACKWARD, is_moving := true }
  (s, p.2 ++ [output in1 false, output in2 true, output in3 false, output in4 true,
              changeDutyA s.current_speed, changeDutyB s.current_speed])

open L298Event in
/-- start_left (lines 86-97). -/
def start_left (s : State) (speed_percent : Int) : State × List L298Event :=
  let p := set_speed s speed_percent
  let s := { p.1 with current_direction := Direction.LEFT, is_moving := true }
  (s, p.2 ++ [output in1 false, output in2 true, output in3 true, output in4 false,
              changeDutyA s.current_speed, changeDutyB s.current_speed])

open L298Event in
/-- start_right (lines 99-110). -/
def start_right (s : State) (speed_percent : Int) : State × List L298Event :=
  let p := set_speed s speed_percent
  let s := { p.1 with current_direction := Direction.RIGHT, is_moving := true }
  (s, p.2 ++ [output in1 true, output in2 false, output in3 false, output in4 true,
              changeDutyA s.current_speed, changeDutyB s.current_speed])

open L298Event in
/-- stop (lines 112-121): all pins low, both duty cycles 0, then state
STOPPED / not moving; current_speed untouched. -/
def stop (s : State) : State × List L298Event :=
  ({ s with current_direction := Direction.STOPPED, is_moving := false },
   [output in1 false, output in2 false, output in3 false, output in4 false,
    changeDutyA 0, changeDutyB 0])

/-- get_status (lines 123-129): current_speed is reported as is. -/
def get_status (s : State) : Status :=
  { speed_percent := s.current_speed,
    direction := s.current_direction,
    is_moving := s.is_moving }

end L298

/-! ## motor/hal/camjam.py — CamJamController

State: current_speed is a Python float in 0.0 .. 1.0 as in motozero, plus
the per-motor left/right speeds; calls on the CamJamKitRobot object are
modelled as events. -/

namespace CamJam

/-- One CamJamKitRobot call issued by the controller. -/
inductive CJEvent
  | robotValue (left right : ℚ)
  | robotStop
deriving DecidableEq, Repr

structure State where
  current_speed : ℚ
  current_direction : Direction
  is_moving : Bool
  left_motor_speed : ℚ
  right_motor_speed : ℚ
deriving DecidableEq, Repr

/-- State after CamJamController.__init__ (lines 13-19): 0.5 is exactly
representable in binary64. -/
def init : State :=
  { current_speed := mkRat 1 2, current_direction := .STOPPED, is_moving := false,
    left_motor_speed := mkRat 1 2, right_motor_speed := mkRat 1 2 }

open CJEvent in
/-- _apply_current_movement (lines 70-79): a single robot.value
assignment carrying the pair of motor speeds; no branch for STOPPED. -/
def apply_current_movement (s : State) : List CJEvent :=
  match s.current_direction with
  | .FORWARD => [robotValue s.left_motor_speed s.right_motor_speed]
  | .BACKWARD => [robotValue (-s.left_motor_speed) (-s.right_motor_speed)]
  | .LEFT => [robotValue s.left_motor_speed 0]
  | .RIGHT => [robotValue 0 s.right_motor_speed]
  | .STOPPED => []

/-- set_speed (lines 21-34): clamp, store speed_percent / 100.0, copy to
both motor speeds, and if moving re-apply the current movement. -/
def set_speed (s : State) (speed_percent : Int) : State × List CJEvent :=
  let c := clampSpeed speed_percent
  let sp := flQ c.toNat 100
  let s := { s with current_speed := sp, left_motor_speed := sp,
                    right_motor_speed := sp }
  if s.is_moving then (s, apply_current_movement s) else (s, [])

/-- start_forward (lines 36-41). -/
def start_forward (s : State) (speed_percent : Int) : State × List CJEvent :=
  let p := set_speed s speed_percent
  let s := { p.1 with current_direction := Direction.FORWARD, is_moving := true }
  (s, p.2 ++ apply_current_movement s)

/-- start_backward (lines 43-48). -/
def start_backward (s : State) (speed_percent : Int) : State × List CJEvent :=
  let p := set_speed s speed_percent
  let s := { p.1 with current_direction := Direction.BACKWARD, is_moving := true }
  (s, p.2 ++ apply_current_movement s)

/-- start_left (lines 50-55). -/
def start_left (s : State) (speed_percent : Int) : State × List CJEvent :=
  let p := set_speed s speed_percent
  let s := { p.1 with current_direction := Direction.LEFT, is_moving := true }
  (s, p.2 ++ apply_current_movement s)

/-- start_right (lines 57-62). -/
def start_right (s : State) (speed_percent : Int) : State × List CJEvent :=
  let p := set_speed s speed_percent
  let s := { p.1 with current_direction := Direction.RIGHT, is_moving := true }
  (s, p.2 ++ apply_current_movement s)

open CJEvent in
/-- stop (lines 64-68): robot.stop(), then STOPPED / not moving;
current_speed and the motor speeds are untouched. -/
def stop (s : State) : State × List CJEvent :=
  ({ s with current_direction := Direction.STOPPED, is_moving := false },
   [robotStop])

/-- get_status (lines 81-89), restricted to the three common fields:
speed_percent is int(current_speed * 100) as in motozero. -/
def get_status (s : State) : Status :=
  { speed_percent := pyInt (pyFloatMulNat s.current_speed 100),
    direction := s.current_direction,
    is_moving := s.is_moving }

end CamJam

/-! ## motor/umc.py — UniversalMotorController

The controller is modelled over the MotoZero backend (the default
controller type of the configuration); the command handling only calls
the common backend interface.  Time values (time.time()) are rationals. -/

namespace UMC

/-- The configuration fields read by umc.py, flattened from the JSON
structure of get_default_config. -/
structure Config where
  controller_type : String
  broker : String
  port : Int
  command_topic : String
  status_topic : String
  heartbeat_timeout_seconds : ℚ
  default_speed_percent : Int
  max_speed_percent : Int
  emergency_stop_enabled : Bool
  heartbeat_monitoring : Bool
  auto_stop_on_disconnect : Bool
deriving DecidableEq, Repr

/-- get_default_config (lines 75-97). -/
def get_default_config : Config :=
  { controller_type := "motozero",
    broker := "localhost",
    port := 1883,
    command_topic := "hov/motor/command",
    status_topic := "hov/motor/status",
    heartbeat_timeout_seconds := 10,
    default_speed_percent := 50,
    max_speed_percent := 100,
    emergency_stop_enabled := true,
    heartbeat_monitoring := true,
    auto_stop_on_disconnect := true }

/-- The Python upper() method, on the ASCII commands occurring here. -/
def pyUpper (s : String) : String := ⟨s.toList.map Char.toUpper⟩

/-- Python str whitespace (the characters removed by strip()). -/
def pyIsSpace (c : Char) : Bool :=
  c = ' ' ∨ c = '\t' ∨ c = '\n' ∨ c = '\r' ∨ c = '\x0b' ∨ c = '\x0c'

/-- The Python strip() method: whitespace removed from both ends. -/
def pyStrip (s : String) : String :=
  ⟨((s.toList.dropWhile pyIsSpace).reverse.dropWhile pyIsSpace).reverse⟩

/-- Split a character list at its first colon, if any. -/
def splitColonList : List Char → Option (List Char × List Char)
  | [] => none
  | c :: rest =>
      if c = ':' then some ([], rest)
      else
        match splitColonList rest with
        | none => none
        | some p => some (c :: p.1, p.2)

/-- The check for a colon and command.split(":", 1) of lines 137-138:
none when the string has no colon, otherwise the part before the first
colon and everything after it. -/
def pySplitColon (s : String) : Option (String × String) :=
  match splitColonList s.toList with
  | none => none
  | some p => some (⟨p.1⟩, ⟨p.2⟩)

/-- Decimal digits to a natural number. -/
def digitsToNat (ds : List Char) : Nat :=
  ds.foldl (fun a c => a * 10 + (c.toNat - 48)) 0

/-- The Python int(str) conversion of line 140: optional surrounding
whitespace, an optional sign, then one or more decimal digits; none when
the conversion raises ValueError.  (Digit-grouping underscores, accepted
by CPython, are not modelled; no command in this development uses them.) -/
def pyParseInt (s : String) : Option Int :=
  let t := (pyStrip s).toList
  let signed : Bool × List Char :=
    match t with
    | '-' :: rest => (true, rest)
    | '+' :: rest => (false, rest)
    | _ => (false, t)
  if signed.2 ≠ [] ∧ signed.2.all Char.isDigit then
    some (if signed.1 then -(digitsToNat signed.2 : Int) else (digitsToNat signed.2 : Int))
  else none

/-- Events observable from process_command: the motor calls of the
backend, and the publish_status call of the STATUS branch. -/
inductive UEvent
  | motor (e : MotoZero.MZEvent)
  | publishStatus
deriving DecidableEq, Repr

/-- Lift a backend result into the event stream. -/
def liftMZ (p : MotoZero.State × List MotoZero.MZEvent) :
    MotoZero.State × List UEvent :=
  (p.1, p.2.map UEvent.motor)

/-- The command dispatch of process_command (lines 149-203), after cmd
and value have been determined.  Unknown commands change nothing. -/
def execute_command (m : MotoZero.State) (cmd : String) (value : Int) :
    MotoZero.State × List UEvent :=
  if cmd = "START_FORWARD" ∨ cmd = "FORWARD" then liftMZ (MotoZero.start_forward m value)
  else if cmd = "START_BACKWARD" ∨ cmd = "BACKWARD" then liftMZ (MotoZero.start_backward m value)
  else if cmd = "START_LEFT" ∨ cmd = "LEFT" then liftMZ (MotoZero.start_left m value)
  else if cmd = "START_RIGHT" ∨ cmd = "RIGHT" then liftMZ (MotoZero.start_right m value)
  else if cmd = "STOP" then liftMZ (MotoZero.stop m)
  else if cmd = "SPEED" then liftMZ (MotoZero.set_speed m value)
  else if cmd = "STATUS" then (m, [UEvent.publishStatus])
  else if cmd = "EMERGENCY_STOP" ∨ cmd = "E_STOP" then liftMZ (MotoZero.stop m)
  -- legacy single-character commands: the start functions are called with
  -- no argument, hence with the Python default parameter 50
  else if cmd = "F" then liftMZ (MotoZero.start_forward m hal_default_speed)
  else if cmd = "B" then liftMZ (MotoZero.start_backward m hal_default_speed)
  else if cmd = "L" then liftMZ (MotoZero.start_left m hal_default_speed)
  else if cmd = "R" then liftMZ (MotoZero.start_right m hal_default_speed)
  else if cmd = "S" then liftMZ (MotoZero.stop m)
  else (m, [])

/-- process_command (lines 132-206): upper-case, split at the first colon
if present (a malformed integer value is logged and the command returned
with no state change, line 141-143), otherwise use the configured default
speed as the value, then dispatch. -/
def process_command (cfg : Config) (m : MotoZero.State) (command : String) :
    MotoZero.State × List UEvent :=
  let command := pyUpper command
  match pySplitColon command with
  | some cv =>
      match pyParseInt cv.2 with
      | none => (m, [])
      | some v => execute_command m cv.1 v
  | none => execute_command m command cfg.default_speed_percent

/-- The state shared by the message handler and the heartbeat monitor:
the backend state and last_heartbeat. -/
structure RunState where
  motor : MotoZero.State
  last_heartbeat : ℚ
deriving DecidableEq, Repr

/-- on_message (lines 117-130) for a payload that decodes as UTF-8 text:
strip the text, refresh last_heartbeat to the current time, then process
the command.  The heartbeat refresh of line 124 precedes the parsing
inside process_command unconditionally. -/
def on_message (cfg : Config) (s : RunState) (now : ℚ) (payloadText : String) :
    RunState × List UEvent :=
  let command := pyStrip payloadText
  let s := { s with last_heartbeat := now }
  let p := process_command cfg s.motor command
  ({ s with motor := p.1 }, p.2)

/-- One iteration of the heartbeat_monitor loop body (lines 223-231),
evaluated at time now; the returned Bool records whether stop() was
called on this tick.  A triggering tick stops the motors and resets
last_heartbeat to now. -/
def heartbeat_tick (cfg : Config) (s : RunState) (now : ℚ) : RunState × Bool :=
  if cfg.heartbeat_monitoring then
    if ratSub now s.last_heartbeat > cfg.heartbeat_timeout_seconds then
      ({ motor := (MotoZero.stop s.motor).1, last_heartbeat := now }, true)
    else (s, false)
  else (s, false)

/-! ### Constructor structure and run()

__init__ (lines 15-21) assigns self.config and self.motor_hal and nothing
else: the assignments to mqtt_client, last_heartbeat, heartbeat_timeout,
heartbeat_monitoring, status_thread and running stand at lines 52-64,
inside _create_motor_controller but after its return statement at line
50.  The method body is modelled as a statement list executed by an
interpreter in which a return statement halts execution, so that the
unreachability is itself proved rather than assumed. -/

/-- The six instance attributes assigned only in the dead code; a field
is none while the attribute has never been assigned (reading it then
raises AttributeError). -/
structure Attrs where
  mqtt_client : Option Unit
  last_heartbeat : Option ℚ
  heartbeat_timeout : Option ℚ
  heartbeat_monitoring : Option Bool
  status_thread : Option Unit
  running : Option Bool
deriving DecidableEq, Repr

/-- A fresh object: no attribute assigned yet. -/
def Attrs.unset : Attrs := ⟨none, none, none, none, none, none⟩

/-- The statements of the _create_motor_controller body from line 50 on:
the return of the controller instance, then the six attribute-assignment
groups of lines 52-64. -/
inductive InitStmt
  | retController
  | setMqttClient
  | setLastHeartbeat
  | setHeartbeatTimeout
  | setHeartbeatMonitoring
  | setStatusThread
  | setRunning
deriving DecidableEq, Repr

/-- Execute one statement: once the returned flag is set every later
statement is skipped (Python execution never reaches code after return). -/
def stepInit (cfg : Config) (now : ℚ) : Attrs × Bool → InitStmt → Attrs × Bool
  | (a, true), _ => (a, true)
  | (a, false), .retController => (a, true)
  | (a, false), .setMqttClient => ({ a with mqtt_client := some () }, false)
  | (a, false), .setLastHeartbeat => ({ a with last_heartbeat := some now }, false)
  | (a, false), .setHeartbeatTimeout =>
      ({ a with heartbeat_timeout := some cfg.heartbeat_timeout_seconds }, false)
  | (a, false), .setHeartbeatMonitoring =>
      ({ a with heartbeat_monitoring := some cfg.heartbeat_monitoring }, false)
  | (a, false), .setStatusThread => ({ a with status_thread := some () }, false)
  | (a, false), .setRunning => ({ a with running := some false }, false)

/-- The tail of _create_motor_controller, lines 50-64, in source order. -/
def create_motor_controller_tail : List InitStmt :=
  [.retController, .setMqttClient, .setLastHeartbeat, .setHeartbeatTimeout,
   .setHeartbeatMonitoring, .setStatusThread, .setRunning]

/-- The attributes of a UniversalMotorController after __init__: the
fresh object after executing the _create_motor_controller tail. -/
def init_attrs (cfg : Config) (now : ℚ) : Attrs :=
  (create_motor_controller_tail.foldl (stepInit cfg now) (Attrs.unset, false)).1

/-- The externally visible steps of run() (lines 250-277). -/
inductive RunEvent
  | mqttConnect (broker : String) (port : Int)
  | startStatusThread
  | startHeartbeatThread
  | loopForever
deriving DecidableEq, Repr

/-- The Python error raised by reading a never-assigned attribute. -/
inductive PyError
  | attributeError (attr : String)
deriving DecidableEq, Repr

/-- run() (lines 250-277) up to its first failure: read broker and port
from config, then self.mqtt_client.connect (an attribute read preceding
the connect call), then running = True, start_status_publisher (which
only assigns status_thread), start_heartbeat_monitor (which reads
self.heartbeat_monitoring), then loop_forever, inside which all message
handling would happen.  Returns the events that occurred before the first
failure together with the failure, if any. -/
def run (cfg : Config) (a : Attrs) : List RunEvent × Option PyError :=
  match a.mqtt_client with
  | none => ([], some (.attributeError "mqtt_client"))
  | some _ =>
      let evs := [RunEvent.mqttConnect cfg.broker cfg.port, RunEvent.startStatusThread]
      match a.heartbeat_monitoring with
      | none => (evs, some (.attributeError "heartbeat_monitoring"))
      | some hm =>
          (evs ++ (if hm then [RunEvent.startHeartbeatThread] else [])
               ++ [RunEvent.loopForever], none)

/-! ### load_config -/

/-- A file system, mapping a file name to its content when it exists. -/
def FileSys := String → Option String

/-- load_config (lines 66-73): a missing file (FileNotFoundError) is
caught and the built-in defaults returned; any error raised by json.load
on an existing file propagates out of the constructor.  json.load is
abstracted as a parameter turning file text into either a parse-error
message or a configuration. -/
def load_config (jsonLoad : String → Except String Config) (fs : FileSys)
    (config_file : String) : Except String Config :=
  match fs config_file with
  | none => .ok get_default_config
  | some text => jsonLoad text

end UMC

/-! ## Operation sequences over the backends

The six operations of the backend interface named by the specification
invariant, as an inductive type, with a fold for running a sequence of
them; used to speak about every reachable state of a backend. -/

inductive Op
  | setSpeed (v : Int)
  | startForward (v : Int)
  | startBackward (v : Int)
  | startLeft (v : Int)
  | startRight (v : Int)
  | stopOp
deriving DecidableEq, Repr

namespace MotoZero

/-- Apply one interface operation to a MotoZero state. -/
def applyOp (s : State) : Op → State
  | .setSpeed v => (set_speed s v).1
  | .startForward v => (start_forward s v).1
  | .startBackward v => (start_backward s v).1
  | .startLeft v => (start_left s v).1
  | .startRight v => (start_right s v).1
  | .stopOp => (stop s).1

/-- Run a sequence of interface operations. -/
def runOps (ops : List Op) (s : State) : State := ops.foldl applyOp s

end MotoZero

namespace L298

/-- Apply one interface operation to an L298 state. -/
def applyOp (s : State) : Op → State
  | .setSpeed v => (set_speed s v).1
  | .startForward v => (start_forward s v).1
  | .startBackward v => (start_backward s v).1
  | .startLeft v => (start_left s v).1
  | .startRight v => (start_right s v).1
  | .stopOp => (stop s).1

/-- Run a sequence of interface operations. -/
def runOps (ops : List Op) (s : State) : State := ops.foldl applyOp s

end L298

namespace CamJam

/-- Apply one interface operation to a CamJam state. -/
def applyOp (s : State) : Op → State
  | .setSpeed v => (set_speed s v).1
  | .startForward v => (start_forward s v).1
  | .startBackward v => (start_backward s v).1
  | .startLeft v => (start_left s v).1
  | .startRight v => (start_right s v).1
  | .stopOp => (stop s).1

/-- Run a sequence of interface operations. -/
def runOps (ops : List Op) (s : State) : State := ops.foldl applyOp s

end CamJam

/-- The default configuration with the default speed set to 70 percent
(any value other than 50 separates the legacy commands from their claimed
long forms). -/
def cfg_default70 : UMC.Config :=
  { UMC.get_default_config with default_speed_percent := 70 }

/-- The default configuration with a heartbeat timeout of half a second,
shorter than the one-second tick interval of the monitor loop. -/
def cfg_halfSecond : UMC.Config :=
  { UMC.get_default_config with heartbeat_timeout_seconds := mkRat 1 2 }

/-- The specification invariant on a MotoZero state, strengthened with
the representation fact needed for induction: the stored float is the
rounding of k/100 for some percentage k in range. -/
def MZInv (s : MotoZero.State) : Prop :=
  (s.is_moving = true ↔ s.current_direction ≠ Direction.STOPPED) ∧
  ∃ k : Nat, k ≤ 100 ∧ s.current_speed = flQ k 100

/-- The specification invariant on an L298 state. -/
def L298Inv (s : L298.State) : Prop :=
  (s.is_moving = true ↔ s.current_direction ≠ Direction.STOPPED) ∧
  0 ≤ s.current_speed ∧ s.current_speed ≤ 100

/-- The specification invariant on a CamJam state (the motion-state
fields; the calibration speeds are not part of the claimed invariant). -/
def CJInv (s : CamJam.State) : Prop :=
  (s.is_moving = true ↔ s.current_direction ≠ Direction.STOPPED) ∧
  ∃ k : Nat, k ≤ 100 ∧ s.current_speed = flQ k 100

/-! ## General lemmas -/

/-- The evaluable difference agrees with subtraction on ℚ. -/
theorem ratSub_eq (a b : ℚ) : ratSub a b = a - b := by
  rw [ratSub, Rat.mkRat_eq_divInt, Rat.divInt_eq_div]
  have ha : (a.den : ℚ) ≠ 0 := by exact_mod_cast a.den_nz
  have hb : (b.den : ℚ) ≠ 0 := by exact_mod_cast b.den_nz
  push_cast
  conv_rhs => rw [← Rat.num_div_den a, ← Rat.num_div_den b]
  rw [div_sub_div _ _ ha hb]
  ring_nf

/-- The evaluable product agrees with multiplication on ℚ. -/
theorem ratMulNat_eq (x : ℚ) (n : Nat) : ratMulNat x n = x * n := by
  rw [ratMulNat, Rat.mkRat_eq_divInt, Rat.divInt_eq_div]
  have hx : (x.den : ℚ) ≠ 0 := by exact_mod_cast x.den_nz
  push_cast
  conv_rhs => rw [← Rat.num_div_den x]
  rw [div_mul_eq_mul_div]

/-- clampSpeed lands in [0, 100]. -/
theorem clampSpeed_mem (v : Int) : 0 ≤ clampSpeed v ∧ clampSpeed v ≤ 100 := by
  unfold clampSpeed
  split <;> [omega; split <;> omega]

/-- clampSpeed is the identity on [0, 100]. -/
theorem clampSpeed_of_mem (v : Int) (h0 : 0 ≤ v) (h1 : v ≤ 100) : clampSpeed v = v := by
  unfold clampSpeed
  split <;> [omega; split <;> omega]

namespace MotoZero

/-- The state component of set_speed: only current_speed changes, to the
binary64 value of the clamped percentage over 100. -/
theorem mz_set_speed_fst (s : State) (v : Int) :
    (set_speed s v).1 = { s with current_speed := flQ (clampSpeed v).toNat 100 } := by
  unfold set_speed
  dsimp only
  split <;> rfl

/-- The state component of start_forward. -/
theorem mz_start_forward_fst (s : State) (v : Int) :
    (start_forward s v).1 =
      ⟨flQ (clampSpeed v).toNat 100, Direction.FORWARD, true⟩ := by
  unfold start_forward
  dsimp only
  rw [mz_set_speed_fst]

/-- The state component of start_backward. -/
theorem mz_start_backward_fst (s : State) (v : Int) :
    (start_backward s v).1 =
      ⟨flQ (clampSpeed v).toNat 100, Direction.BACKWARD, true⟩ := by
  unfold start_backward
  dsimp only
  rw [mz_set_speed_fst]

/-- The state component of start_left. -/
theorem mz_start_left_fst (s : State) (v : Int) :
    (start_left s v).1 =
      ⟨flQ (clampSpeed v).toNat 100, Direction.LEFT, true⟩ := by
  unfold start_left
  dsimp only
  rw [mz_set_speed_fst]

/-- The state component of start_right. -/
theorem mz_start_right_fst (s : State) (v : Int) :
    (start_right s v).1 =
      ⟨flQ (clampSpeed v).toNat 100, Direction.RIGHT, true⟩ := by
  unfold start_right
  dsimp only
  rw [mz_set_speed_fst]

/-- The state component of stop: only direction and is_moving change. -/
theorem mz_stop_fst (s : State) :
    (stop s).1 = { s with current_direction := Direction.STOPPED, is_moving := false } :=
  rfl

/-- The events of set_speed while moving: the current movement (with the
unchanged direction) is re-applied at the new speed. -/
theorem mz_set_speed_snd_moving (s : State) (v : Int) (h : s.is_moving = true) :
    (set_speed s v).2 =
      apply_current_movement { s with current_speed := flQ (clampSpeed v).toNat 100 } := by
  unfold set_speed
  dsimp only
  rw [h]
  rfl

/-- The events of set_speed while stopped: no motor call at all. -/
theorem mz_set_speed_snd_stopped (s : State) (v : Int) (h : s.is_moving = false) :
    (set_speed s v).2 = [] := by
  unfold set_speed
  dsimp only
  rw [h]
  rfl

end MotoZero

namespace L298

/-- The state component of set_speed: only current_speed changes, to the
clamped percentage. -/
theorem l298_set_speed_fst (s : State) (v : Int) :
    (set_speed s v).1 = { s with current_speed := clampSpeed v } := by
  unfold set_speed
  dsimp only
  split <;> rfl

/-- The state component of start_forward. -/
theorem l298_start_forward_fst (s : State) (v : Int) :
    (start_forward s v).1 = ⟨clampSpeed v, Direction.FORWARD, true⟩ := by
  unfold start_forward
  dsimp only
  rw [l298_set_speed_fst]

/-- The state component of start_backward. -/
theorem l298_start_backward_fst (s : State) (v : Int) :
    (start_backward s v).1 = ⟨clampSpeed v, Direction.BACKWARD, true⟩ := by
  unfold start_backward
  dsimp only
  rw [l298_set_speed_fst]

/-- The state component of start_left. -/
theorem l298_start_left_fst (s : State) (v : Int) :
    (start_left s v).1 = ⟨clampSpeed v, Direction.LEFT, true⟩ := by
  unfold start_left
  dsimp only
  rw [l298_set_speed_fst]

/-- The state component of start_right. -/
theorem l298_start_right_fst (s : State) (v : Int) :
    (start_right s v).1 = ⟨clampSpeed v, Direction.RIGHT, true⟩ := by
  unfold start_right
  dsimp only
  rw [l298_set_speed_fst]

/-- The state component of stop. -/
theorem l298_stop_fst (s : State) :
    (stop s).1 = { s with current_direction := Direction.STOPPED, is_moving := false } :=
  rfl

/-- The events of set_speed while moving: both PWM duty cycles change to
the clamped speed; no direction pin is written. -/
theorem l298_set_speed_snd_moving (s : State) (v : Int) (h : s.is_moving = true) :
    (set_speed s v).2 =
      [L298Event.changeDutyA (clampSpeed v), L298Event.changeDutyB (clampSpeed v)] := by
  unfold set_speed
  dsimp only
  rw [h]
  rfl

/-- The events of set_speed while stopped: no GPIO or PWM call at all. -/
theorem l298_set_speed_snd_stopped (s : State) (v : Int) (h : s.is_moving = false) :
    (set_speed s v).2 = [] := by
  unfold set_speed
  dsimp only
  rw [h]
  rfl

end L298

namespace CamJam

/-- The state component of set_speed. -/
theorem cj_set_speed_fst (s : State) (v : Int) :
    (set_speed s v).1 =
      { s with current_speed := flQ (clampSpeed v).toNat 100,
               left_motor_speed := flQ (clampSpeed v).toNat 100,
               right_motor_speed := flQ (clampSpeed v).toNat 100 } := by
  unfold set_speed
  dsimp only
  split <;> rfl

/-- The state component of start_forward. -/
theorem cj_start_forward_fst (s : State) (v : Int) :
    (start_forward s v).1 =
      ⟨flQ (clampSpeed v).toNat 100, Direction.FORWARD, true,
       flQ (clampSpeed v).toNat 100, flQ (clampSpeed v).toNat 100⟩ := by
  unfold start_forward
  dsimp only
  rw [cj_set_speed_fst]

/-- The state component of start_backward. -/
theorem cj_start_backward_fst (s : State) (v : Int) :
    (start_backward s v).1 =
      ⟨flQ (clampSpeed v).toNat 100, Direction.BACKWARD, true,
       flQ (clampSpeed v).toNat 100, flQ (clampSpeed v).toNat 100⟩ := by
  unfold start_backward
  dsimp only
  rw [cj_set_speed_fst]

/-- The state component of start_left. -/
theorem cj_start_left_fst (s : State) (v : Int) :
    (start_left s v).1 =
      ⟨flQ (clampSpeed v).toNat 100, Direction.LEFT, true,
       flQ (clampSpeed v).toNat 100, flQ (clampSpeed v).toNat 100⟩ := by
  unfold start_left
  dsimp only
  rw [cj_set_speed_fst]

/-- The state component of start_right. -/
theorem cj_start_right_fst (s : State) (v : Int) :
    (start_right s v).1 =
      ⟨flQ (clampSpeed v).toNat 100, Direction.RIGHT, true,
       flQ (clampSpeed v).toNat 100, flQ (clampSpeed v).toNat 100⟩ := by
  unfold start_right
  dsimp only
  rw [cj_set_speed_fst]

/-- The state component of stop. -/
theorem cj_stop_fst (s : State) :
    (stop s).1 = { s with current_direction := Direction.STOPPED, is_moving := false } :=
  rfl

end CamJam

/-- The reported speed_percent of the float backends, tabulated over the
101 clamped percentages: int((k/100.0) * 100.0) is k or k - 1, and in
particular stays in [0, 100]. -/
theorem float_report_table :
    ∀ k : Fin 101,
      0 ≤ pyInt (pyFloatMulNat (flQ k.val 100) 100) ∧
      pyInt (pyFloatMulNat (flQ k.val 100) 100) ≤ (k.val : Int) ∧
      (k.val : Int) - 1 ≤ pyInt (pyFloatMulNat (flQ k.val 100) 100) := by
  decide

/-- The reported speed_percent of the float backends for a percentage p
in range: it is p or p - 1, and stays in [0, 100]. -/
theorem float_report_bound (p : Int) (h0 : 0 ≤ p) (h1 : p ≤ 100) :
    0 ≤ pyInt (pyFloatMulNat (flQ p.toNat 100) 100) ∧
    pyInt (pyFloatMulNat (flQ p.toNat 100) 100) ≤ p ∧
    p - 1 ≤ pyInt (pyFloatMulNat (flQ p.toNat 100) 100) := by
  have h := float_report_table ⟨p.toNat, by omega⟩
  have hc : ((p.toNat : Nat) : Int) = p := by omega
  simpa [hc] using h

/-- The MotoZero invariant holds initially. -/
theorem MZInv_init : MZInv MotoZero.init := by
  refine ⟨by simp [MotoZero.init], 0, by omega, by decide⟩

/-- The MotoZero invariant is preserved by every interface operation. -/
theorem MZInv_applyOp (s : MotoZero.State) (op : Op) (h : MZInv s) :
    MZInv (MotoZero.applyOp s op) := by
  cases op with
  | setSpeed v =>
      rw [MotoZero.applyOp, MotoZero.mz_set_speed_fst]
      refine ⟨h.1, (clampSpeed v).toNat, ?_, rfl⟩
      have := clampSpeed_mem v
      omega
  | startForward v =>
      rw [MotoZero.applyOp, MotoZero.mz_start_forward_fst]
      refine ⟨by simp, (clampSpeed v).toNat, ?_, rfl⟩
      have := clampSpeed_mem v
      omega
  | startBackward v =>
      rw [MotoZero.applyOp, MotoZero.mz_start_backward_fst]
      refine ⟨by simp, (clampSpeed v).toNat, ?_, rfl⟩
      have := clampSpeed_mem v
      omega
  | startLeft v =>
      rw [MotoZero.applyOp, MotoZero.mz_start_left_fst]
      refine ⟨by simp, (clampSpeed v).toNat, ?_, rfl⟩
      have := clampSpeed_mem v
      omega
  | startRight v =>
      rw [MotoZero.applyOp, MotoZero.mz_start_right_fst]
      refine ⟨by simp, (clampSpeed v).toNat, ?_, rfl⟩
      have := clampSpeed_mem v
      omega
  | stopOp =>
      rw [MotoZero.applyOp, MotoZero.mz_stop_fst]
      exact ⟨by simp, h.2⟩

/-- The MotoZero invariant holds after any operation sequence. -/
theorem MZInv_runOps (ops : List Op) (s : MotoZero.State) (h : MZInv s) :
    MZInv (MotoZero.runOps ops s) := by
  induction ops generalizing s with
  | nil => exact h
  | cons op rest ih => exact ih _ (MZInv_applyOp s op h)

/-- The L298 invariant holds initially. -/
theorem L298Inv_init : L298Inv L298.init := by
  refine ⟨by simp [L298.init], by decide, by decide⟩

/-- The L298 invariant is preserved by every interface operation. -/
theorem L298Inv_applyOp (s : L298.State) (op : Op) (h : L298Inv s) :
    L298Inv (L298.applyOp s op) := by
  cases op with
  | setSpeed v =>
      rw [L298.applyOp, L298.l298_set_speed_fst]
      exact ⟨h.1, (clampSpeed_mem v).1, (clampSpeed_mem v).2⟩
  | startForward v =>
      rw [L298.applyOp, L298.l298_start_forward_fst]
      exact ⟨by simp, (clampSpeed_mem v).1, (clampSpeed_mem v).2⟩
  | startBackward v =>
      rw [L298.applyOp, L298.l298_start_backward_fst]
      exact ⟨by simp, (clampSpeed_mem v).1, (clampSpeed_mem v).2⟩
  | startLeft v =>
      rw [L298.applyOp, L298.l298_start_left_fst]
      exact ⟨by simp, (clampSpeed_mem v).1, (clampSpeed_mem v).2⟩
  | startRight v =>
      rw [L298.applyOp, L298.l298_start_right_fst]
      exact ⟨by simp, (clampSpeed_mem v).1, (clampSpeed_mem v).2⟩
  | stopOp =>
      rw [L298.applyOp, L298.l298_stop_fst]
      exact ⟨by simp, h.2⟩

/-- The L298 invariant holds after any operation sequence. -/
theorem L298Inv_runOps (ops : List Op) (s : L298.State) (h : L298Inv s) :
    L298Inv (L298.runOps ops s) := by
  induction ops generalizing s with
  | nil => exact h
  | cons op rest ih => exact ih _ (L298Inv_applyOp s op h)

/-- The CamJam invariant holds initially. -/
theorem CJInv_init : CJInv CamJam.init := by
  refine ⟨by simp [CamJam.init], 50, by omega, by decide⟩

/-- The CamJam invariant is preserved by every interface operation. -/
theorem CJInv_applyOp (s : CamJam.State) (op : Op) (h : CJInv s) :
    CJInv (CamJam.applyOp s op) := by
  cases op with
  | setSpeed v =>
      rw [CamJam.applyOp, CamJam.cj_set_speed_fst]
      refine ⟨h.1, (clampSpeed v).toNat, ?_, rfl⟩
      have := clampSpeed_mem v
      omega
  | startForward v =>
      rw [CamJam.applyOp, CamJam.cj_start_forward_fst]
      refine ⟨by simp, (clampSpeed v).toNat, ?_, rfl⟩
      have := clampSpeed_mem v
      omega
  | startBackward v =>
      rw [CamJam.applyOp, CamJam.cj_start_backward_fst]
      refine ⟨by simp, (clampSpeed v).toNat, ?_, rfl⟩
      have := clampSpeed_mem v
      omega
  | startLeft v =>
      rw [CamJam.applyOp, CamJam.cj_start_left_fst]
      refine ⟨by simp, (clampSpeed v).toNat, ?_, rfl⟩
      have := clampSpeed_mem v
      omega
  | startRight v =>
      rw [CamJam.applyOp, CamJam.cj_start_right_fst]
      refine ⟨by simp, (clampSpeed v).toNat, ?_, rfl⟩
      have := clampSpeed_mem v
      omega
  | stopOp =>
      rw [CamJam.applyOp, CamJam.cj_stop_fst]
      exact ⟨by simp, h.2⟩

/-- The CamJam invariant holds after any operation sequence. -/
theorem CJInv_runOps (ops : List Op) (s : CamJam.State) (h : CJInv s) :
    CJInv (CamJam.runOps ops s) := by
  induction ops generalizing s with
  | nil => exact h
  | cons op rest ih => exact ih _ (CJInv_applyOp s op h)

/-! ## Claims -/

/-- C1: for every configuration and construction time, __init__ leaves
mqtt_client, last_heartbeat, heartbeat_timeout, heartbeat_monitoring,
status_thread and running unassigned (the assignments stand after the
return statement of _create_motor_controller and are never executed), and
run() on such an object fails with an AttributeError on mqtt_client
before any MQTT connection or command processing occurs (no run event is
emitted). -/
theorem C1_init_attrs_unset_run_fails (cfg : UMC.Config) (now : ℚ) :
    UMC.init_attrs cfg now = UMC.Attrs.unset ∧
    UMC.run cfg (UMC.init_attrs cfg now) =
      ([], some (UMC.PyError.attributeError "mqtt_client")) :=
  ⟨rfl, rfl⟩

/-- C2 counterexample: the message SPEED:ABC fails to parse (non-integer
value after the colon), yet handling it at time 5 from a state whose
last_heartbeat is 0 leaves last_heartbeat = 5, not its previous value 0:
the heartbeat refresh of on_message precedes parsing.  The motor state is
indeed unchanged. -/
theorem C2_counterexample :
    UMC.pyParseInt "ABC" = none ∧
    (UMC.on_message UMC.get_default_config ⟨MotoZero.init, 0⟩ 5 "SPEED:ABC").1.last_heartbeat
      = 5 ∧
    ¬ (5 : ℚ) = 0 ∧
    (UMC.on_message UMC.get_default_config ⟨MotoZero.init, 0⟩ 5 "SPEED:ABC").1.motor
      = MotoZero.init := by
  refine ⟨by decide, by decide, by decide, by decide⟩

/-- C2 amended: a message whose value fails to parse still refreshes the
heartbeat, because on_message sets last_heartbeat to the receipt time
before process_command runs; the parse failure leaves the motor state
unchanged and issues no motor call. -/
theorem C2_amended (cfg : UMC.Config) (s : UMC.RunState) (now : ℚ) (raw : String)
    (h : ∃ cv, UMC.pySplitColon (UMC.pyUpper (UMC.pyStrip raw)) = some cv ∧
               UMC.pyParseInt cv.2 = none) :
    (UMC.on_message cfg s now raw).1.last_heartbeat = now ∧
    (UMC.on_message cfg s now raw).1.motor = s.motor ∧
    (UMC.on_message cfg s now raw).2 = [] := by
  obtain ⟨cv, hsplit, hparse⟩ := h
  have hp : UMC.process_command cfg s.motor (UMC.pyStrip raw) = (s.motor, []) := by
    unfold UMC.process_command
    simp only [hsplit, hparse]
  unfold UMC.on_message
  simp only [hp]
  refine ⟨?_, ?_, ?_⟩ <;> trivial

/-- C2 amended, witness at the malformed message SPEED:ABC. -/
theorem C2_amended_witness :
    (UMC.on_message UMC.get_default_config ⟨MotoZero.init, 0⟩ 5 "SPEED:ABC").1.last_heartbeat
        = 5 ∧
    (UMC.on_message UMC.get_default_config ⟨MotoZero.init, 0⟩ 5 "SPEED:ABC").1.motor
        = MotoZero.init ∧
    (UMC.on_message UMC.get_default_config ⟨MotoZero.init, 0⟩ 5 "SPEED:ABC").2 = [] :=
  C2_amended UMC.get_default_config ⟨MotoZero.init, 0⟩ 5 "SPEED:ABC"
    ⟨("SPEED", "ABC"), by decide, by decide⟩

/-- C3 counterexample: with monitoring enabled and a configured timeout
of half a second (shorter than the one-second tick interval), the tick at
time 1 from last_heartbeat 0 is a breach and stops, and with no further
commands the immediately following tick one second later calls stop()
again, contradicting the claimed single stop per breach for every state
of the monitor. -/
theorem C3_counterexample :
    (UMC.heartbeat_tick cfg_halfSecond ⟨MotoZero.init, 0⟩ 1).2 = true ∧
    (UMC.heartbeat_tick cfg_halfSecond
        (UMC.heartbeat_tick cfg_halfSecond ⟨MotoZero.init, 0⟩ 1).1 2).2 = true := by
  refine ⟨by decide, by decide⟩

/-- C3 amended: provided the configured timeout is at least the
one-second tick interval, a breach tick stops the motors exactly once and
resets last_heartbeat to the current time, the immediately following tick
one second later does not stop again and leaves the state unchanged, and
a later tick whose distance from the reset exceeds the timeout stops
exactly once more. -/
theorem C3_amended (cfg : UMC.Config) (s : UMC.RunState) (now t : ℚ)
    (hmon : cfg.heartbeat_monitoring = true)
    (hbreach : ratSub now s.last_heartbeat > cfg.heartbeat_timeout_seconds)
    (htick : 1 ≤ cfg.heartbeat_timeout_seconds)
    (hlater : ratSub t now > cfg.heartbeat_timeout_seconds) :
    (UMC.heartbeat_tick cfg s now).2 = true ∧
    (UMC.heartbeat_tick cfg s now).1.last_heartbeat = now ∧
    (UMC.heartbeat_tick cfg s now).1.motor = (MotoZero.stop s.motor).1 ∧
    (UMC.heartbeat_tick cfg (UMC.heartbeat_tick cfg s now).1 (now + 1)).2 = false ∧
    (UMC.heartbeat_tick cfg (UMC.heartbeat_tick cfg s now).1 (now + 1)).1
      = (UMC.heartbeat_tick cfg s now).1 ∧
    (UMC.heartbeat_tick cfg (UMC.heartbeat_tick cfg s now).1 t).2 = true := by
  have h1 : UMC.heartbeat_tick cfg s now =
      ({ motor := (MotoZero.stop s.motor).1, last_heartbeat := now }, true) := by
    unfold UMC.heartbeat_tick
    rw [hmon, if_pos hbreach]
    rfl
  have hno : ¬ ratSub (now + 1) now > cfg.heartbeat_timeout_seconds := by
    rw [ratSub_eq, add_sub_cancel_left]
    exact not_lt.mpr htick
  have h2 : UMC.heartbeat_tick cfg
      ({ motor := (MotoZero.stop s.motor).1, last_heartbeat := now } : UMC.RunState)
      (now + 1)
      = (({ motor := (MotoZero.stop s.motor).1, last_heartbeat := now } : UMC.RunState),
         false) := by
    unfold UMC.heartbeat_tick
    rw [hmon, if_neg hno]
    rfl
  have h3 : (UMC.heartbeat_tick cfg
      ({ motor := (MotoZero.stop s.motor).1, last_heartbeat := now } : UMC.RunState) t).2
      = true := by
    unfold UMC.heartbeat_tick
    rw [hmon, if_pos hlater]
    rfl
  rw [h1]
  exact ⟨rfl, rfl, rfl, by rw [h2], by rw [h2], h3⟩

/-- C3 amended, witness with the default configuration (timeout 10): a
breach at time 11 stops, the tick at time 12 does not, a tick at time 30
stops once more. -/
theorem C3_amended_witness :
    (UMC.heartbeat_tick UMC.get_default_config ⟨MotoZero.init, 0⟩ 11).2 = true ∧
    (UMC.heartbeat_tick UMC.get_default_config
        (UMC.heartbeat_tick UMC.get_default_config ⟨MotoZero.init, 0⟩ 11).1 (11 + 1)).2
      = false ∧
    (UMC.heartbeat_tick UMC.get_default_config
        (UMC.heartbeat_tick UMC.get_default_config ⟨MotoZero.init, 0⟩ 11).1 30).2 = true := by
  have h := C3_amended UMC.get_default_config ⟨MotoZero.init, 0⟩ 11 30 rfl
    (by decide) (by decide) (by decide)
  exact ⟨h.1, h.2.2.2.1, h.2.2.2.2.2⟩

/-- clampSpeed of an above-range value is 100. -/
theorem clampSpeed_of_hi (v : Int) (h : 100 < v) : clampSpeed v = 100 := by
  unfold clampSpeed
  rw [if_neg (by omega), if_pos (by omega)]

/-- clampSpeed of a negative value is 0. -/
theorem clampSpeed_of_lo (v : Int) (h : v < 0) : clampSpeed v = 0 := by
  unfold clampSpeed
  rw [if_pos h]

/-- C4 counterexample: processing START_FORWARD:150 with the default
configuration (default speed 50) leaves the reported speed at 100, the
clamped value, not at the configured default 50. -/
theorem C4_counterexample :
    (MotoZero.get_status
        (UMC.process_command UMC.get_default_config MotoZero.init
          "START_FORWARD:150").1).speed_percent = 100 ∧
    UMC.get_default_config.default_speed_percent = 50 ∧
    ¬ (100 : Int) = 50 := by
  refine ⟨by decide, rfl, by decide⟩

/-- C4 amended: a movement command with an out-of-range value is clamped
into [0,100] (above 100 gives full speed 1.0, below 0 gives 0.0) rather
than replaced by the configured default; only a command with a missing
value falls back to the configured default speed (itself clamped). -/
theorem C4_amended (cfg : UMC.Config) (m : MotoZero.State) (vhi vlo : Int)
    (hhi : 100 < vhi) (hlo : vlo < 0) :
    (UMC.execute_command m "START_FORWARD" vhi).1.current_speed = 1 ∧
    (UMC.execute_command m "START_FORWARD" vlo).1.current_speed = 0 ∧
    (UMC.process_command cfg m "START_FORWARD").1.current_speed
      = flQ (clampSpeed cfg.default_speed_percent).toNat 100 := by
  have e1 : (UMC.execute_command m "START_FORWARD" vhi).1
      = (MotoZero.start_forward m vhi).1 := rfl
  have e2 : (UMC.execute_command m "START_FORWARD" vlo).1
      = (MotoZero.start_forward m vlo).1 := rfl
  have e3 : (UMC.process_command cfg m "START_FORWARD").1
      = (MotoZero.start_forward m cfg.default_speed_percent).1 := rfl
  rw [e1, e2, e3, MotoZero.mz_start_forward_fst, MotoZero.mz_start_forward_fst,
      MotoZero.mz_start_forward_fst]
  refine ⟨?_, ?_, rfl⟩
  · rw [show (MotoZero.State.mk (flQ (clampSpeed vhi).toNat 100)
        Direction.FORWARD true).current_speed = flQ (clampSpeed vhi).toNat 100 from rfl,
        clampSpeed_of_hi vhi hhi]
    decide
  · rw [show (MotoZero.State.mk (flQ (clampSpeed vlo).toNat 100)
        Direction.FORWARD true).current_speed = flQ (clampSpeed vlo).toNat 100 from rfl,
        clampSpeed_of_lo vlo hlo]
    decide

/-- C4 amended, witness at 150, -5 and a missing value. -/
theorem C4_amended_witness :
    (UMC.execute_command MotoZero.init "START_FORWARD" 150).1.current_speed = 1 ∧
    (UMC.execute_command MotoZero.init "START_FORWARD" (-5)).1.current_speed = 0 ∧
    (UMC.process_command UMC.get_default_config MotoZero.init
        "START_FORWARD").1.current_speed
      = flQ (clampSpeed UMC.get_default_config.default_speed_percent).toNat 100 :=
  C4_amended UMC.get_default_config MotoZero.init 150 (-5) (by decide) (by decide)

/-- C5 counterexample: with the configured default speed set to 70, the
legacy command F and START_FORWARD:70 produce different motion states
(the legacy command starts at the built-in default 50 percent). -/
theorem C5_counterexample :
    ¬ (UMC.process_command cfg_default70 MotoZero.init "F").1 =
      (UMC.process_command cfg_default70 MotoZero.init "START_FORWARD:70").1 := by
  decide

/-- Legacy F: both sides reduce to start_forward at the built-in 50. -/
theorem legacy_F_eq (cfg : UMC.Config) (m : MotoZero.State) :
    UMC.process_command cfg m "F" = UMC.process_command cfg m "START_FORWARD:50" := rfl

/-- Legacy B: both sides reduce to start_backward at the built-in 50. -/
theorem legacy_B_eq (cfg : UMC.Config) (m : MotoZero.State) :
    UMC.process_command cfg m "B" = UMC.process_command cfg m "START_BACKWARD:50" := rfl

/-- Legacy L: both sides reduce to start_left at the built-in 50. -/
theorem legacy_L_eq (cfg : UMC.Config) (m : MotoZero.State) :
    UMC.process_command cfg m "L" = UMC.process_command cfg m "START_LEFT:50" := rfl

/-- Legacy R: both sides reduce to start_right at the built-in 50. -/
theorem legacy_R_eq (cfg : UMC.Config) (m : MotoZero.State) :
    UMC.process_command cfg m "R" = UMC.process_command cfg m "START_RIGHT:50" := rfl

/-- Legacy S: both sides reduce to stop. -/
theorem legacy_S_eq (cfg : UMC.Config) (m : MotoZero.State) :
    UMC.process_command cfg m "S" = UMC.process_command cfg m "STOP" := rfl

/-- C5 amended: for every configuration and every initial motion state,
each legacy single-character command is equivalent (same resulting state
and same motor calls) to its long form at the built-in HAL default speed
of 50 percent, which coincides with the configured default only when that
default is 50; S is equivalent to STOP. -/
theorem C5_amended (cfg : UMC.Config) (m : MotoZero.State) :
    UMC.process_command cfg m "F" = UMC.process_command cfg m "START_FORWARD:50" ∧
    UMC.process_command cfg m "B" = UMC.process_command cfg m "START_BACKWARD:50" ∧
    UMC.process_command cfg m "L" = UMC.process_command cfg m "START_LEFT:50" ∧
    UMC.process_command cfg m "R" = UMC.process_command cfg m "START_RIGHT:50" ∧
    UMC.process_command cfg m "S" = UMC.process_command cfg m "STOP" :=
  ⟨legacy_F_eq cfg m, legacy_B_eq cfg m, legacy_L_eq cfg m,
   legacy_R_eq cfg m, legacy_S_eq cfg m⟩

/-- C6 counterexample: on the MotoZero backend, start_forward(29)
followed by get_status reports speed_percent 28, not 29, because
int(0.29 * 100) is 28 in binary64 arithmetic. -/
theorem C6_counterexample :
    (MotoZero.get_status (MotoZero.start_forward MotoZero.init 29).1).speed_percent = 28 ∧
    ¬ (28 : Int) = 29 := by
  refine ⟨by decide, by decide⟩

/-- C6 amended: for every percent in [0,100], from every state, startX
then get_status reports is_moving true and direction X on every backend;
speed_percent is exactly percent on the L298 backend, while the MotoZero
and CamJam backends report int((percent/100.0)*100.0) under binary64
arithmetic, which is percent or percent - 1. -/
theorem C6_amended (p : Int) (h0 : 0 ≤ p) (h1 : p ≤ 100)
    (s1 : L298.State) (s2 : MotoZero.State) (s3 : CamJam.State) :
    (L298.get_status (L298.start_forward s1 p).1 = ⟨p, .FORWARD, true⟩ ∧
     L298.get_status (L298.start_backward s1 p).1 = ⟨p, .BACKWARD, true⟩ ∧
     L298.get_status (L298.start_left s1 p).1 = ⟨p, .LEFT, true⟩ ∧
     L298.get_status (L298.start_right s1 p).1 = ⟨p, .RIGHT, true⟩) ∧
    (MotoZero.get_status (MotoZero.start_forward s2 p).1
        = ⟨pyInt (pyFloatMulNat (flQ p.toNat 100) 100), .FORWARD, true⟩ ∧
     MotoZero.get_status (MotoZero.start_backward s2 p).1
        = ⟨pyInt (pyFloatMulNat (flQ p.toNat 100) 100), .BACKWARD, true⟩ ∧
     MotoZero.get_status (MotoZero.start_left s2 p).1
        = ⟨pyInt (pyFloatMulNat (flQ p.toNat 100) 100), .LEFT, true⟩ ∧
     MotoZero.get_status (MotoZero.start_right s2 p).1
        = ⟨pyInt (pyFloatMulNat (flQ p.toNat 100) 100), .RIGHT, true⟩) ∧
    (CamJam.get_status (CamJam.start_forward s3 p).1
        = ⟨pyInt (pyFloatMulNat (flQ p.toNat 100) 100), .FORWARD, true⟩ ∧
     CamJam.get_status (CamJam.start_backward s3 p).1
        = ⟨pyInt (pyFloatMulNat (flQ p.toNat 100) 100), .BACKWARD, true⟩ ∧
     CamJam.get_status (CamJam.start_left s3 p).1
        = ⟨pyInt (pyFloatMulNat (flQ p.toNat 100) 100), .LEFT, true⟩ ∧
     CamJam.get_status (CamJam.start_right s3 p).1
        = ⟨pyInt (pyFloatMulNat (flQ p.toNat 100) 100), .RIGHT, true⟩) ∧
    (p - 1 ≤ pyInt (pyFloatMulNat (flQ p.toNat 100) 100) ∧
     pyInt (pyFloatMulNat (flQ p.toNat 100) 100) ≤ p) := by
  have hc : clampSpeed p = p := clampSpeed_of_mem p h0 h1
  refine ⟨⟨?_, ?_, ?_, ?_⟩, ⟨?_, ?_, ?_, ?_⟩, ⟨?_, ?_, ?_, ?_⟩, ?_, ?_⟩
  · rw [L298.l298_start_forward_fst, hc]; rfl
  · rw [L298.l298_start_backward_fst, hc]; rfl
  · rw [L298.l298_start_left_fst, hc]; rfl
  · rw [L298.l298_start_right_fst, hc]; rfl
  · rw [MotoZero.mz_start_forward_fst, hc]; rfl
  · rw [MotoZero.mz_start_backward_fst, hc]; rfl
  · rw [MotoZero.mz_start_left_fst, hc]; rfl
  · rw [MotoZero.mz_start_right_fst, hc]; rfl
  · rw [CamJam.cj_start_forward_fst, hc]; rfl
  · rw [CamJam.cj_start_backward_fst, hc]; rfl
  · rw [CamJam.cj_start_left_fst, hc]; rfl
  · rw [CamJam.cj_start_right_fst, hc]; rfl
  · exact (float_report_bound p h0 h1).2.2
  · exact (float_report_bound p h0 h1).2.1

/-- C6 amended, witness at percent 50 from the initial states. -/
theorem C6_amended_witness :
    L298.get_status (L298.start_forward L298.init 50).1 = ⟨50, .FORWARD, true⟩ ∧
    MotoZero.get_status (MotoZero.start_forward MotoZero.init 50).1
      = ⟨pyInt (pyFloatMulNat (flQ (50 : Int).toNat 100) 100), .FORWARD, true⟩ ∧
    (50 : Int) - 1 ≤ pyInt (pyFloatMulNat (flQ (50 : Int).toNat 100) 100) :=
  have h := C6_amended 50 (by decide) (by decide) L298.init MotoZero.init CamJam.init
  ⟨h.1.1, h.2.1.1, h.2.2.2.1⟩

/-- C7: from a moving state, set_speed stores the clamped speed, keeps
the direction and is_moving unchanged, and immediately re-applies the
current movement at the new speed (MotoZero: the four motor calls of
_apply_current_movement; L298: both PWM duty cycles, with no direction
pin written); from a stopped state, set_speed changes only the stored
speed and issues no motor call; the clamped value always lies in [0,100]. -/
theorem C7_set_speed_continuous (s t : MotoZero.State) (s2 t2 : L298.State) (v : Int)
    (hs : s.is_moving = true) (ht : t.is_moving = false)
    (hs2 : s2.is_moving = true) (ht2 : t2.is_moving = false) :
    (0 ≤ clampSpeed v ∧ clampSpeed v ≤ 100) ∧
    ((MotoZero.set_speed s v).1.current_direction = s.current_direction ∧
     (MotoZero.set_speed s v).1.is_moving = true ∧
     (MotoZero.set_speed s v).2 =
       MotoZero.apply_current_movement
         { s with current_speed := flQ (clampSpeed v).toNat 100 }) ∧
    ((MotoZero.set_speed t v).1
        = { t with current_speed := flQ (clampSpeed v).toNat 100 } ∧
     (MotoZero.set_speed t v).2 = []) ∧
    ((L298.set_speed s2 v).1.current_direction = s2.current_direction ∧
     (L298.set_speed s2 v).1.is_moving = true ∧
     (L298.set_speed s2 v).2 =
       [L298.L298Event.changeDutyA (clampSpeed v),
        L298.L298Event.changeDutyB (clampSpeed v)]) ∧
    ((L298.set_speed t2 v).1 = { t2 with current_speed := clampSpeed v } ∧
     (L298.set_speed t2 v).2 = []) := by
  refine ⟨clampSpeed_mem v, ⟨?_, ?_, ?_⟩, ⟨?_, ?_⟩, ⟨?_, ?_, ?_⟩, ⟨?_, ?_⟩⟩
  · rw [MotoZero.mz_set_speed_fst]
  · rw [MotoZero.mz_set_speed_fst]; exact hs
  · exact MotoZero.mz_set_speed_snd_moving s v hs
  · rw [MotoZero.mz_set_speed_fst]
  · exact MotoZero.mz_set_speed_snd_stopped t v ht
  · rw [L298.l298_set_speed_fst]
  · rw [L298.l298_set_speed_fst]; exact hs2
  · exact L298.l298_set_speed_snd_moving s2 v hs2
  · rw [L298.l298_set_speed_fst]
  · exact L298.l298_set_speed_snd_stopped t2 v ht2

/-- C7 witness: speed change to 80 while moving forward, and while
stopped, on both backends. -/
theorem C7_witness :
    (MotoZero.set_speed ⟨0, Direction.FORWARD, true⟩ 80).2 =
      MotoZero.apply_current_movement
        ⟨flQ (clampSpeed 80).toNat 100, Direction.FORWARD, true⟩ ∧
    (MotoZero.set_speed MotoZero.init 80).2 = [] ∧
    (L298.set_speed ⟨50, Direction.FORWARD, true⟩ 80).2 =
      [L298.L298Event.changeDutyA (clampSpeed 80),
       L298.L298Event.changeDutyB (clampSpeed 80)] ∧
    (L298.set_speed L298.init 80).2 = [] :=
  have h := C7_set_speed_continuous ⟨0, Direction.FORWARD, true⟩ MotoZero.init
    ⟨50, Direction.FORWARD, true⟩ L298.init 80 rfl rfl rfl rfl
  ⟨h.2.1.2.2, h.2.2.1.2, h.2.2.2.1.2.2, h.2.2.2.2.2⟩

/-- C8: on every backend, stop() sets direction STOPPED and is_moving
false while leaving the stored speed unchanged, from every state
(including the initial one, before any movement command), and two
consecutive stop() calls leave the state identical to one. -/
theorem C8_stop_idempotent :
    (∀ s : MotoZero.State,
      (MotoZero.stop s).1
          = { s with current_direction := Direction.STOPPED, is_moving := false } ∧
      (MotoZero.stop (MotoZero.stop s).1).1 = (MotoZero.stop s).1) ∧
    (∀ s : L298.State,
      (L298.stop s).1
          = { s with current_direction := Direction.STOPPED, is_moving := false } ∧
      (L298.stop (L298.stop s).1).1 = (L298.stop s).1) ∧
    (∀ s : CamJam.State,
      (CamJam.stop s).1
          = { s with current_direction := Direction.STOPPED, is_moving := false } ∧
      (CamJam.stop (CamJam.stop s).1).1 = (CamJam.stop s).1) :=
  ⟨fun _ => ⟨rfl, rfl⟩, fun _ => ⟨rfl, rfl⟩, fun _ => ⟨rfl, rfl⟩⟩

/-- C9: after every sequence of interface operations from the initial
state, each backend satisfies the MotionState invariant: is_moving holds
exactly when the direction is not STOPPED, and the speed percentage lies
in [0, 100] (for the float backends, the reported speed_percent of
get_status; for L298, the stored percentage itself). -/
theorem C9_invariant_reachable (ops : List Op) :
    ((MotoZero.runOps ops MotoZero.init).is_moving = true ↔
      (MotoZero.runOps ops MotoZero.init).current_direction ≠ Direction.STOPPED) ∧
    0 ≤ (MotoZero.get_status (MotoZero.runOps ops MotoZero.init)).speed_percent ∧
    (MotoZero.get_status (MotoZero.runOps ops MotoZero.init)).speed_percent ≤ 100 ∧
    ((L298.runOps ops L298.init).is_moving = true ↔
      (L298.runOps ops L298.init).current_direction ≠ Direction.STOPPED) ∧
    0 ≤ (L298.runOps ops L298.init).current_speed ∧
    (L298.runOps ops L298.init).current_speed ≤ 100 ∧
    ((CamJam.runOps ops CamJam.init).is_moving = true ↔
      (CamJam.runOps ops CamJam.init).current_direction ≠ Direction.STOPPED) ∧
    0 ≤ (CamJam.get_status (CamJam.runOps ops CamJam.init)).speed_percent ∧
    (CamJam.get_status (CamJam.runOps ops CamJam.init)).speed_percent ≤ 100 := by
  obtain ⟨hm1, k, hk, hks⟩ := MZInv_runOps ops MotoZero.init MZInv_init
  obtain ⟨hl1, hl2, hl3⟩ := L298Inv_runOps ops L298.init L298Inv_init
  obtain ⟨hc1, k2, hk2, hks2⟩ := CJInv_runOps ops CamJam.init CJInv_init
  have hb : 0 ≤ pyInt (pyFloatMulNat (flQ k 100) 100) ∧
      pyInt (pyFloatMulNat (flQ k 100) 100) ≤ (k : Int) ∧
      (k : Int) - 1 ≤ pyInt (pyFloatMulNat (flQ k 100) 100) :=
    float_report_table ⟨k, by omega⟩
  have hb2 : 0 ≤ pyInt (pyFloatMulNat (flQ k2 100) 100) ∧
      pyInt (pyFloatMulNat (flQ k2 100) 100) ≤ (k2 : Int) ∧
      (k2 : Int) - 1 ≤ pyInt (pyFloatMulNat (flQ k2 100) 100) :=
    float_report_table ⟨k2, by omega⟩
  refine ⟨hm1, ?_, ?_, hl1, hl2, hl3, hc1, ?_, ?_⟩
  · simp only [MotoZero.get_status, hks]
    exact hb.1
  · simp only [MotoZero.get_status, hks]
    have h1 := hb.2.1
    omega
  · simp only [CamJam.get_status, hks2]
    exact hb2.1
  · simp only [CamJam.get_status, hks2]
    have h1 := hb2.2.1
    omega

/-- C10 counterexample: constructing with a missing config file does not
terminate startup with an error: load_config catches the missing-file
condition and returns the built-in defaults, and startup continues. -/
theorem C10_counterexample :
    UMC.load_config (fun _ => Except.error "invalid JSON") (fun _ => none)
        "motor_config.json"
      = Except.ok UMC.get_default_config ∧
    ∀ e : String,
      ¬ UMC.load_config (fun _ => Except.error "invalid JSON") (fun _ => none)
          "motor_config.json"
        = Except.error e :=
  ⟨rfl, fun _ h => Except.noConfusion h⟩

/-- C10 amended: only a config file with invalid JSON fails fast (the
json.load error propagates out of the constructor); a missing config file
is caught, the built-in defaults are used, and startup continues. -/
theorem C10_amended (jsonLoad : String → Except String UMC.Config)
    (fs1 fs2 : UMC.FileSys) (name text err : String)
    (h1 : fs1 name = none) (h2 : fs2 name = some text)
    (h3 : jsonLoad text = Except.error err) :
    UMC.load_config jsonLoad fs1 name = Except.ok UMC.get_default_config ∧
    UMC.load_config jsonLoad fs2 name = Except.error err := by
  constructor
  · unfold UMC.load_config
    rw [h1]
  · unfold UMC.load_config
    rw [h2]
    exact h3

/-- C10 amended, witness: an empty file system and one whose config file
holds text the JSON parser rejects. -/
theorem C10_amended_witness :
    UMC.load_config (fun _ => Except.error "invalid JSON") (fun _ => none)
        "motor_config.json"
      = Except.ok UMC.get_default_config ∧
    UMC.load_config (fun _ => Except.error "invalid JSON")
        (fun _ => some "not json") "motor_config.json"
      = Except.error "invalid JSON" :=
  C10_amended (fun _ => Except.error "invalid JSON") (fun _ => none)
    (fun _ => some "not json") "motor_config.json" "not json" "invalid JSON"
    rfl rfl rfl

end Rovers
